import Mathlib

/-!
Verification of the webcrypto-local core against its specification.

The development shallowly embeds the two source files of the repository:
the caller-side `Client` (correlated request/response over the ratchet
channel) and the server-side `LocalServer` dispatcher with its crypto
handle registry.  Byte strings are modelled as `List Nat`, JavaScript
strings where case handling matters as lists of code points, and the
external WebCrypto providers as records of abstract operations.
-/

namespace WebcryptoLocal

/-! ## Bytes and hex encoding (`Convert.ToHex` from pvtsutils) -/

/-- One hex digit (lowercase), as `Convert.ToHex` produces. -/
def hexDigit (n : Nat) : Char :=
  if n < 10 then Char.ofNat (48 + n) else Char.ofNat (87 + n)

/-- Hex encoding of a single byte, two lowercase digits. -/
def byteToHex (b : Nat) : String :=
  String.mk [hexDigit (b / 16 % 16), hexDigit (b % 16)]

/-- `Convert.ToHex`: lowercase hex encoding of a byte string. -/
def toHex (l : List Nat) : String :=
  String.join (l.map byteToHex)

/-! ## Client (src/unnamed/part_000)

The client keeps `stack`, a map from `actionId` to the pending promise's
`resolve`/`reject` pair.  We model the stack as the list of pending
`actionId`s and record, for each processed event, which settlement
actions the code performs. -/

/-- `ResultProto`: the result envelope parsed by `Client.onMessage`.
`error` is a protobuf string field; the code tests it for JS truthiness,
so the empty string means "no error". -/
structure ResultProto where
  actionId : String
  action : String
  error : String
  data : List Nat
deriving DecidableEq, Repr

/-- What the client does to a pending promise while processing an event. -/
inductive Settle where
  /-- `promise.resolve(proto.data)` ran for the pending entry `id`. -/
  | resolved (id : String) (data : List Nat)
  /-- `promise.reject(new Error(proto.error))` ran for the pending entry `id`. -/
  | rejected (id : String) (msg : String)
  /-- the stack had no entry for the frame's `actionId`: `promise` is
  `undefined` and `promise.reject`/`promise.resolve` raises a TypeError. -/
  | crashedUndefined
deriving DecidableEq, Repr

/-- Events observable at the client, sliced from `Client.send`, the
`socket.onclose` handler and `Client.onMessage`. -/
inductive ClientEvt where
  /-- `send` whose `exportProto`/`cipher.encrypt` chain succeeded: the
  pending entry is registered (`this.stack[data.actionId] = {resolve, reject}`)
  and the frame transmitted. -/
  | sendOk (id : String)
  /-- `send` whose `exportProto` or `cipher.encrypt` rejected: the chain
  has no `catch`, so nothing runs — no entry is registered and neither
  `resolve` nor `reject` is ever invoked. -/
  | sendEncryptFail (id : String)
  /-- a decrypted inbound frame reached `Client.onMessage`. -/
  | recvFrame (proto : ResultProto)
  /-- the socket closed: `socket.onclose` only emits a `ClientCloseEvent`;
  the pending stack is not touched. -/
  | socketClose
deriving DecidableEq, Repr

/-- One client step: the pending-stack transition and the settlement
actions performed, translated from `Client.send`, `Client.onMessage`
and the socket handlers. -/
def clientStep (stack : List String) : ClientEvt → List String × List Settle
  | .sendOk id => (stack ++ [id], [])
  | .sendEncryptFail _ => (stack, [])
  | .recvFrame proto =>
    -- const promise = this.stack[proto.actionId]; delete this.stack[proto.actionId]
    let stack' := stack.erase proto.actionId
    if proto.actionId ∈ stack then
      if proto.error ≠ "" then
        (stack', [.rejected proto.actionId proto.error])
      else
        (stack', [.resolved proto.actionId proto.data])
    else
      (stack', [.crashedUndefined])
  | .socketClose => (stack, [])

/-- Run the client over a sequence of events, collecting all settlements. -/
def clientRun (stack : List String) : List ClientEvt → List String × List Settle
  | [] => (stack, [])
  | e :: es =>
    let (stack', out) := clientStep stack e
    let (stack'', out') := clientRun stack' es
    (stack'', out ++ out')

/-! ## Crypto objects and the handle registry (src/unnamed/part_001) -/

/-- A live WebCrypto key object, as seen through the fields the source
reads: its `type` (`"public"`, `"private"` or `"secret"`), its
`algorithm` and `usages` (forwarded to `importKey` by `GetIdentity`),
and an abstract identifier for the underlying material. -/
structure CryptoKeyObj where
  type : String
  algorithm : Nat
  usages : List String
  material : Nat
deriving DecidableEq, Repr

/-- Modelled from the spec: `ServiceCryptoItem` (service/crypto_item.ts is
not under src/), the handle-registry row of §3 — `{handle, liveObject,
providerId}`.  The source constructs it as
`new ServiceCryptoItem(thumbprint, key, providerID)` and reads
`item.id`, `item.item`, `item.providerID`. -/
structure ServiceCryptoItem where
  id : String
  item : CryptoKeyObj
  providerID : String
deriving DecidableEq, Repr

/-- The wire-side handle triple carried by `CryptoItemProto`:
`{id, providerID, type}` (§3 CryptoHandle). -/
structure CryptoItemProto where
  id : String
  providerID : String
  type : String
deriving DecidableEq, Repr

/-- Modelled from the spec: `CryptoKeyProto`'s handle fields as copied by
`ServiceCryptoItem.toProto` — id, providerID and the key's type. -/
def ServiceCryptoItem.toProto (s : ServiceCryptoItem) : CryptoItemProto :=
  ⟨s.id, s.providerID, s.item.type⟩

/-- Line 17 of the dispatcher source:
`const crypto = new (require("node-webcrypto-ossl"))()` — the
module-level canonical provider is constructed unconditionally, so the
binding is always a (truthy) object. -/
def moduleCryptoLoaded : Bool := true

/-- `LocalServer.getItemFromStorage`: first-match scan of the registry on
the `(id, providerID, type)` triple; when nothing matches, the code only
throws `Cannot get CryptoItem by ID '<id>'` under `if (!crypto)`, i.e.
when the module-level provider failed to load — otherwise it returns the
(undefined) `foundKey`. -/
def getItemFromStorage (memoryStorage : List ServiceCryptoItem)
    (cryptoItem : CryptoItemProto) : Except String (Option ServiceCryptoItem) :=
  let foundKey := memoryStorage.find? fun item =>
    item.id == cryptoItem.id && item.providerID == cryptoItem.providerID &&
      item.item.type == cryptoItem.type
  match foundKey with
  | some k => .ok (some k)
  | none =>
    if !moduleCryptoLoaded then
      .error ("Cannot get CryptoItem by ID '" ++ cryptoItem.id ++ "'")
    else
      .ok none

/-! ## KeyStorage.Clear handler (part_001 lines 428–437) -/

/-- The two storages of one provider's crypto instance, keyed by index. -/
structure ProviderCryptoState where
  keyStorageItems : List String
  certStorageItems : List String
deriving DecidableEq, Repr

/-- The body of the `KeyStorageClearActionProto` case: after resolving
the addressed provider's crypto, the code runs
`await crypto.certStorage.clear()` and returns no data. -/
def keyStorageClearHandler (st : ProviderCryptoState) : ProviderCryptoState :=
  { st with certStorageItems := [] }

/-! ## KeyStorage.GetItem usages argument (part_001 lines 375–397) -/

/-- A JavaScript argument position: `null`, `undefined`, or a value. -/
inductive JsArg (α : Type) where
  | nullArg
  | undefinedArg
  | value (a : α)
deriving DecidableEq, Repr

/-- The third argument the `KeyStorageGetItemActionProto` case passes to
`crypto.keyStorage.getItem`: the source writes
`params.keyUsages ? null : params.keyUsages`.  A present usages field is
an array, and arrays (even empty ones) are truthy in JavaScript, so a
present field yields `null`; an absent field yields `undefined`. -/
def keyStorageGetItemUsagesArgument (keyUsages : Option (List String)) :
    JsArg (List String) :=
  match keyUsages with
  | some _ => .nullArg
  | none => .undefinedArg

/-! ## Action dispatch (part_001 `onMessage` switch, lines 107–542) -/

/-- Modelled from the spec: the `ACTION` tag constants live in
`core/protos/*` (not under src/); §4.D/§6 make each a stable string tag,
one per case of the dispatcher's switch, with no collisions.  The exact
string values are immaterial to the dispatcher's control flow. -/
def ACTION_TAGS : List String :=
  ["ProviderInfo", "ProviderGetCrypto", "IsLoggedIn", "Login",
   "Digest", "GenerateKey", "Sign", "Verify", "Encrypt", "Decrypt",
   "DeriveBits", "DeriveKey", "WrapKey", "UnwrapKey", "ExportKey", "ImportKey",
   "KeyStorageGetItem", "KeyStorageSetItem", "KeyStorageRemoveItem",
   "KeyStorageKeys", "KeyStorageClear",
   "CertStorageGetItem", "CertStorageSetItem", "CertStorageRemoveItem",
   "CertStorageImport", "CertStorageExport", "CertStorageKeys", "CertStorageClear"]

/-- The control skeleton of `LocalServer.onMessage`'s switch over
`action.action`: a known tag reaches its case body; the `default` case
throws `` `Unknown action '${action.action}'` `` (line 538). -/
def dispatchAction (tag : String) : Except String Unit :=
  if tag ∈ ACTION_TAGS then .ok () else .error ("Unknown action '" ++ tag ++ "'")

/-- One connected session as the dispatcher sees it: transport open flag,
authorization, and whether a ratchet cipher is live. -/
structure SessionConn where
  isOpen : Bool
  authorized : Bool
  cipher : Bool
deriving DecidableEq, Repr

/-- The result envelope sent back for one action (§3 ResultEnvelope). -/
structure ResultEnvelope where
  data : Option (List Nat)
  error : Option String
deriving DecidableEq, Repr

/-- Modelled from the spec: the connection server (`connection/server`,
not under src/) receives the handler's outcome through
`this.onMessage(e.session, e.message).then(e.resolve, e.reject)`; §7's
propagation policy converts any rejection into a ResultEnvelope whose
`error` field holds the message, sent in-band on the still-open
session — handlers never crash the dispatcher or close the channel. -/
def deliverHandlerResult (s : SessionConn) (r : Except String (List Nat)) :
    SessionConn × ResultEnvelope :=
  match r with
  | .ok d => (s, ⟨some d, none⟩)
  | .error e => (s, ⟨none, some e⟩)

/-- Dispatch one inbound action envelope on a session, pairing the switch
skeleton with the result delivery; known tags here carry no payload. -/
def serverHandleFrame (s : SessionConn) (tag : String) : SessionConn × ResultEnvelope :=
  deliverHandlerResult s ((dispatchAction tag).map fun _ => [])

/-! ## GetIdentity (part_001 lines 565–576) -/

/-- The operations `GetIdentity` uses from the module-level canonical
(node-webcrypto-ossl) provider: `subtle.importKey("jwk", ...)`,
`subtle.exportKey("spki", ...)`, `subtle.digest("SHA-256", ...)` and
`getRandomValues(new Uint8Array(32))`. -/
structure CryptoOps where
  importJwk : Nat → Nat → Bool → List String → CryptoKeyObj
  exportSpki : CryptoKeyObj → List Nat
  sha256 : List Nat → List Nat
  random32 : List Nat
  random32_length : random32.length = 32

/-- The one operation `GetIdentity` uses from the key's source provider:
`provider.subtle.exportKey("jwk", key)`. -/
structure ProviderOps where
  exportJwk : CryptoKeyObj → Nat

/-- `GetIdentity(key, provider)` translated from the source: non-public
keys get the hex of 32 random bytes from the module-level provider;
public keys are exported as JWK from the *source* provider, reimported
into the module-level provider (with the key's algorithm, extractable =
`true`, and the key's usages), exported as SPKI there, SHA-256 hashed and
hex-encoded. -/
def GetIdentity (ossl : CryptoOps) (provider : ProviderOps)
    (key : CryptoKeyObj) : String :=
  if key.type ≠ "public" then
    toHex ossl.random32
  else
    let jwk := provider.exportJwk key
    let osslKey := ossl.importJwk jwk key.algorithm true key.usages
    let raw := ossl.exportSpki osslKey
    let thumbprint := ossl.sha256 raw
    toHex thumbprint

/-- The identity computation as the specification words it, case by case:
for public keys the hex encoding of the SHA-256 hash of the SPKI export
of the key reimported into the canonical provider from its source
provider's JWK export; for every other key type the hex encoding of the
32 freshly drawn random bytes. -/
def GetIdentityPerSpec (ossl : CryptoOps) (provider : ProviderOps)
    (key : CryptoKeyObj) : String :=
  match key.type with
  | "public" =>
    toHex (ossl.sha256 (ossl.exportSpki
      (ossl.importJwk (provider.exportJwk key) key.algorithm true key.usages)))
  | _ => toHex ossl.random32

/-! ## GenerateKey key-pair case (part_001 lines 180–216) -/

/-- The reply payload of a key-pair `GenerateKey`
(`CryptoKeyPairProto`). -/
structure CryptoKeyPairProtoM where
  privateKey : CryptoItemProto
  publicKey : CryptoItemProto
deriving DecidableEq, Repr

/-- The `CryptoKeyPair` branch of the `GenerateKeyActionProto` case:
the thumbprint of the generated public key names both halves; two
`ServiceCryptoItem`s are pushed onto `memoryStorage` and the reply pair
proto is built from them.  The post-state and the reply are produced
together, so every entry in the returned storage is in place before the
reply is exported. -/
def generateKeyPairCase (memoryStorage : List ServiceCryptoItem)
    (providerID : String) (thumbprint : String)
    (pubKey privKey : CryptoKeyObj) :
    List ServiceCryptoItem × CryptoKeyPairProtoM :=
  let publicKey : ServiceCryptoItem := ⟨thumbprint, pubKey, providerID⟩
  let privateKey : ServiceCryptoItem := ⟨thumbprint, privKey, providerID⟩
  let storage := memoryStorage ++ [publicKey] ++ [privateKey]
  (storage, { privateKey := privateKey.toProto, publicKey := publicKey.toProto })

/-! ## Provider token broadcast (part_001 lines 39–58) -/

/-- A session as the token handler reads it: `session.cipher` (a live
ratchet, tested for truthiness) and `session.authorized`, plus an
identifier distinguishing peers. -/
structure Session where
  sid : Nat
  cipher : Bool
  authorized : Bool
deriving DecidableEq, Repr

/-- The `token` handler installed in the `LocalServer` constructor:
`this.sessions.forEach` sends a `ProviderTokenEventProto` to exactly the
sessions satisfying `session.cipher && session.authorized`. -/
def tokenBroadcastTargets (sessions : List Session) : List Session :=
  sessions.filter fun session => session.cipher && session.authorized

/-! ## ExportKey / ImportKey format handling (part_001 lines 325–373)

JavaScript strings are modelled here by their code-point sequences;
`String.prototype.toLowerCase` is modelled on the ASCII range, which
covers every format tag the WebCrypto surface uses. -/

/-- The code points of a Lean string literal. -/
def strCodes (s : String) : List Nat :=
  s.data.map Char.toNat

/-- `toLowerCase` on one code point: the Unicode default case conversion,
carrying the ASCII uppercase letters and U+212A KELVIN SIGN, the single
non-ASCII code point whose Unicode lowercase is one of `j`, `w`, `k`.
All other code points are left fixed.  This is exact for the branch test
`format.toLowerCase() === "jwk"`: no other code point lowercases into
`{j, w, k}`, and the one length-changing lowercase mapping in Unicode
(U+0130 → `i` + combining dot above) contains none of them, so the test
agrees with full Unicode `toLowerCase` on every string. -/
def jsCodeToLower (c : Nat) : Nat :=
  if 65 ≤ c ∧ c ≤ 90 then c + 32
  else if c = 8490 then 107
  else c

/-- `String.prototype.toLowerCase` over code points. -/
def jsToLowerCase (s : List Nat) : List Nat :=
  s.map jsCodeToLower

/-- What the `ExportKeyActionProto` case puts on the wire. -/
inductive ExportWire where
  /-- `Convert.FromUtf8String(JSON.stringify(exportedData))`. -/
  | utf8Json (jsonUtf8 : List Nat)
  /-- `exportedData as ArrayBuffer`, passed through. -/
  | rawBuffer (bytes : List Nat)
deriving DecidableEq, Repr

/-- The serialization branch of the `ExportKeyActionProto` case:
`params.format.toLowerCase() === "jwk"` selects the UTF-8 JSON encoding
of the exported data, anything else passes the exported bytes through. -/
def exportKeySerialize (format : List Nat) (jsonUtf8 : List Nat)
    (rawBytes : List Nat) : ExportWire :=
  if jsToLowerCase format = strCodes "jwk" then .utf8Json jsonUtf8
  else .rawBuffer rawBytes

/-- The key-data value the `ImportKeyActionProto` case hands to
`crypto.subtle.importKey`. -/
inductive ImportSource where
  /-- `JSON.parse(Convert.ToUtf8String(params.keyData))`: the UTF-8 JSON
  decoding of the received bytes. -/
  | parsedJwk (keyDataBytes : List Nat)
  /-- `params.keyData` passed through as raw bytes. -/
  | rawBytes (bytes : List Nat)
deriving DecidableEq, Repr

/-- The deserialization branch of the `ImportKeyActionProto` case:
`params.format.toLowerCase() === "jwk"` selects JSON decoding of the key
data, anything else passes the bytes through. -/
def importKeyDataArgument (format : List Nat) (keyData : List Nat) : ImportSource :=
  if jsToLowerCase format = strCodes "jwk" then .parsedJwk keyData
  else .rawBytes keyData

/-- The eight capitalizations of `"jwk"`: each character independently
lower- or upper-case. -/
def jwkCapitalizations : List (List Nat) :=
  [strCodes "jwk", strCodes "jwK", strCodes "jWk", strCodes "jWK",
   strCodes "Jwk", strCodes "JwK", strCodes "JWk", strCodes "JWK"]

/-- The full lowercase fiber of `"jwk"` under Unicode `toLowerCase`: the
eight capitalizations plus the four strings carrying U+212A KELVIN SIGN
(code point 8490, which lowercases to `k`) in the last position. -/
def jwkSelectingFormats : List (List Nat) :=
  jwkCapitalizations ++
    [[106, 119, 8490], [106, 87, 8490], [74, 119, 8490], [74, 87, 8490]]

/-! ## Sample concrete crypto operations, for evaluating the model -/

/-- A small concrete instance of the canonical provider's operations. -/
def sampleOps : CryptoOps where
  importJwk := fun jwk alg _ usages => ⟨"public", alg, usages, jwk⟩
  exportSpki := fun k => [k.material % 256]
  sha256 := fun l => l
  random32 := List.replicate 32 0
  random32_length := List.length_replicate 32 0

/-- A small concrete instance of a source provider's operations. -/
def sampleProvider : ProviderOps where
  exportJwk := fun k => k.material

/-! ## Helper lemmas -/

/-- The code points whose `toLowerCase` is `j`. -/
lemma jsCodeToLower_eq_j (c : Nat) :
    jsCodeToLower c = 106 ↔ c = 106 ∨ c = 74 := by
  unfold jsCodeToLower
  split
  · omega
  · split <;> omega

/-- The code points whose `toLowerCase` is `w`. -/
lemma jsCodeToLower_eq_w (c : Nat) :
    jsCodeToLower c = 119 ↔ c = 119 ∨ c = 87 := by
  unfold jsCodeToLower
  split
  · omega
  · split <;> omega

/-- The code points whose `toLowerCase` is `k`: the two letters and
U+212A KELVIN SIGN. -/
lemma jsCodeToLower_eq_k (c : Nat) :
    jsCodeToLower c = 107 ↔ c = 107 ∨ c = 75 ∨ c = 8490 := by
  unfold jsCodeToLower
  split
  · omega
  · split <;> omega

/-- The branch test of the export/import key cases holds exactly on the
twelve-string lowercase fiber of `"jwk"`. -/
lemma jsToLowerCase_eq_jwk (f : List Nat) :
    jsToLowerCase f = strCodes "jwk" ↔ f ∈ jwkSelectingFormats := by
  constructor
  · intro h
    have hjwk : strCodes "jwk" = [106, 119, 107] := by decide
    rw [hjwk] at h
    simp only [jsToLowerCase] at h
    cases f with
    | nil => simp at h
    | cons a f1 =>
      cases f1 with
      | nil => simp at h
      | cons b f2 =>
        cases f2 with
        | nil => simp at h
        | cons c f3 =>
          cases f3 with
          | cons d f4 => simp at h
          | nil =>
            simp only [List.map_cons, List.map_nil, List.cons.injEq, and_true] at h
            obtain ⟨ha, hb, hc⟩ := h
            have ha2 := (jsCodeToLower_eq_j a).mp ha
            have hb2 := (jsCodeToLower_eq_w b).mp hb
            have hc2 := (jsCodeToLower_eq_k c).mp hc
            rcases ha2 with rfl | rfl <;> rcases hb2 with rfl | rfl <;>
              rcases hc2 with rfl | rfl | rfl <;> decide
  · intro h
    fin_cases h <;> decide

/-! ## Claim theorems -/

/-- C1: the spec requires that every `send` that assigned an `actionId`
eventually runs exactly one of `resolve`/`reject` — also when
serialization or encryption fails and when the channel closes while the
call is pending.  Evaluating the client at those failing inputs: a
successfully transmitted send followed by a socket close leaves the
pending entry unsettled (the close handler only emits an event), and a
send whose serialize/encrypt chain rejects settles nothing (the chain
has no catch). -/
theorem send_pending_never_settled_on_close_or_encrypt_failure :
    clientRun [] [.sendOk "0", .socketClose] = (["0"], []) ∧
    clientRun [] [.sendEncryptFail "0"] = ([], []) :=
  ⟨rfl, rfl⟩

/-- C2: the spec requires a registry miss — in particular a handle with a
foreign `providerId` — to raise `Cannot get CryptoItem by ID '<id>'`.
Evaluating the code at such inputs: the throw is guarded by
`if (!crypto)` on the always-constructed module-level provider, so the
lookup returns JavaScript `undefined` and no error is raised. -/
theorem lookup_miss_returns_undefined_without_error :
    getItemFromStorage [⟨"x", ⟨"public", 1, [], 5⟩, "A"⟩] ⟨"x", "B", "public"⟩ = .ok none ∧
    getItemFromStorage [] ⟨"x", "A", "public"⟩ = .ok none :=
  ⟨rfl, rfl⟩

/-- C3: the spec requires `KeyStorage.Clear` to clear the provider's key
storage and leave its certificate storage unchanged.  Evaluating the
handler on a provider holding one key and one certificate: the code runs
`crypto.certStorage.clear()`, emptying the certificate storage and
leaving the key storage untouched — the opposite of the claim. -/
theorem key_storage_clear_clears_cert_storage :
    keyStorageClearHandler ⟨["k1"], ["c1"]⟩ = ⟨["k1"], []⟩ :=
  rfl

/-- C4: the spec requires a present (non-empty) `keyUsages` list to be
passed through to `keyStorage.getItem`.  The code writes
`params.keyUsages ? null : params.keyUsages`, and an array is truthy, so
every present usages list is replaced by `null`. -/
theorem key_storage_get_item_usages_nulled (usages : List String) :
    keyStorageGetItemUsagesArgument (some usages) = .nullArg :=
  rfl

/-- C5: an inbound envelope whose action string matches no known action
tag is rejected with `Unknown action '<tag>'`; the error travels in-band
as the result envelope's error field and the session state is left
untouched. -/
theorem unknown_action_rejected_in_band (s : SessionConn) (tag : String)
    (h : tag ∉ ACTION_TAGS) :
    serverHandleFrame s tag =
      (s, ⟨none, some ("Unknown action '" ++ tag ++ "'")⟩) := by
  simp [serverHandleFrame, dispatchAction, deliverHandlerResult, h, Except.map]

/-- C5 witness: the unknown tag `"Nope"` on an open authorized session. -/
theorem unknown_action_rejected_in_band_witness :
    "Nope" ∉ ACTION_TAGS ∧
    serverHandleFrame ⟨true, true, true⟩ "Nope" =
      (⟨true, true, true⟩, ⟨none, some ("Unknown action '" ++ "Nope" ++ "'")⟩) :=
  ⟨by decide, unknown_action_rejected_in_band ⟨true, true, true⟩ "Nope" (by decide)⟩

/-- C6 counterexample: the claim also asserts the shared id differs from
every previously returned handle id, but the code performs no uniqueness
check: `GetIdentity` is deterministic on public keys, so when the
provider produces a public key it produced before, the new pair's id
equals the id already returned by the earlier `GenerateKey`. -/
theorem generate_key_pair_id_can_repeat :
    (let pub : CryptoKeyObj := ⟨"public", 1, [], 7⟩
     let priv : CryptoKeyObj := ⟨"private", 1, [], 8⟩
     let tp1 := GetIdentity sampleOps sampleProvider pub
     let r1 := generateKeyPairCase [] "p1" tp1 pub priv
     let tp2 := GetIdentity sampleOps sampleProvider pub
     let r2 := generateKeyPairCase r1.1 "p1" tp2 pub priv
     r2.2.publicKey.id = r1.2.publicKey.id ∧
       r2.2.publicKey.id ∈ r1.1.map ServiceCryptoItem.id) := by
  decide

/-- C6 (amended): on a key-pair `GenerateKey`, both halves carry the
public key's thumbprint as their id, both registry entries are in the
registry the reply is produced with, and — provided the thumbprint of
the freshly generated public key is not already an id in the registry —
the shared id differs from every previously stored handle id. -/
theorem generate_key_pair_shared_fresh_id (ossl : CryptoOps)
    (provider : ProviderOps) (memoryStorage : List ServiceCryptoItem)
    (providerID : String) (pub priv : CryptoKeyObj)
    (hfresh : GetIdentity ossl provider pub ∉ memoryStorage.map ServiceCryptoItem.id) :
    (generateKeyPairCase memoryStorage providerID
        (GetIdentity ossl provider pub) pub priv).2.publicKey.id =
      (generateKeyPairCase memoryStorage providerID
        (GetIdentity ossl provider pub) pub priv).2.privateKey.id ∧
    (⟨GetIdentity ossl provider pub, pub, providerID⟩ : ServiceCryptoItem) ∈
      (generateKeyPairCase memoryStorage providerID
        (GetIdentity ossl provider pub) pub priv).1 ∧
    (⟨GetIdentity ossl provider pub, priv, providerID⟩ : ServiceCryptoItem) ∈
      (generateKeyPairCase memoryStorage providerID
        (GetIdentity ossl provider pub) pub priv).1 ∧
    ∀ prev ∈ memoryStorage,
      (generateKeyPairCase memoryStorage providerID
        (GetIdentity ossl provider pub) pub priv).2.publicKey.id ≠ prev.id := by
  refine ⟨rfl, ?_, ?_, ?_⟩
  · simp [generateKeyPairCase]
  · simp [generateKeyPairCase]
  · intro prev hprev
    simp only [generateKeyPairCase, ServiceCryptoItem.toProto]
    intro heq
    exact hfresh (heq ▸ List.mem_map_of_mem ServiceCryptoItem.id hprev)

/-- C6 witness: a fresh pair over an empty registry. -/
theorem generate_key_pair_shared_fresh_id_witness :
    GetIdentity sampleOps sampleProvider ⟨"public", 1, [], 7⟩ ∉
      ([] : List ServiceCryptoItem).map ServiceCryptoItem.id ∧
    ((generateKeyPairCase [] "p1"
        (GetIdentity sampleOps sampleProvider ⟨"public", 1, [], 7⟩)
        ⟨"public", 1, [], 7⟩ ⟨"private", 1, [], 8⟩).2.publicKey.id =
      (generateKeyPairCase [] "p1"
        (GetIdentity sampleOps sampleProvider ⟨"public", 1, [], 7⟩)
        ⟨"public", 1, [], 7⟩ ⟨"private", 1, [], 8⟩).2.privateKey.id ∧
    (⟨GetIdentity sampleOps sampleProvider ⟨"public", 1, [], 7⟩,
        ⟨"public", 1, [], 7⟩, "p1"⟩ : ServiceCryptoItem) ∈
      (generateKeyPairCase [] "p1"
        (GetIdentity sampleOps sampleProvider ⟨"public", 1, [], 7⟩)
        ⟨"public", 1, [], 7⟩ ⟨"private", 1, [], 8⟩).1 ∧
    (⟨GetIdentity sampleOps sampleProvider ⟨"public", 1, [], 7⟩,
        ⟨"private", 1, [], 8⟩, "p1"⟩ : ServiceCryptoItem) ∈
      (generateKeyPairCase [] "p1"
        (GetIdentity sampleOps sampleProvider ⟨"public", 1, [], 7⟩)
        ⟨"public", 1, [], 7⟩ ⟨"private", 1, [], 8⟩).1 ∧
    ∀ prev ∈ ([] : List ServiceCryptoItem),
      (generateKeyPairCase [] "p1"
        (GetIdentity sampleOps sampleProvider ⟨"public", 1, [], 7⟩)
        ⟨"public", 1, [], 7⟩ ⟨"private", 1, [], 8⟩).2.publicKey.id ≠ prev.id) :=
  ⟨by decide,
   generate_key_pair_shared_fresh_id sampleOps sampleProvider [] "p1"
     ⟨"public", 1, [], 7⟩ ⟨"private", 1, [], 8⟩ (by decide)⟩

/-- C7: `GetIdentity` computes, for public keys, the hex of the SHA-256
of the SPKI export of the key reimported into the canonical provider
from its source provider's JWK export, and for every other key type the
hex of the canonical provider's 32 fresh random bytes — exactly the
spec's case-by-case description. -/
theorem get_identity_matches_spec (ossl : CryptoOps) (provider : ProviderOps)
    (key : CryptoKeyObj) :
    GetIdentity ossl provider key = GetIdentityPerSpec ossl provider key := by
  unfold GetIdentity GetIdentityPerSpec
  by_cases h : key.type = "public" <;> simp [h]

/-- C8: the spec requires a frame with no matching pending `actionId` to
be dispatched to event listeners rather than treated as a reply.
Evaluating the client at such a frame: the stack lookup yields
`undefined` and the unconditional `promise.resolve`/`promise.reject`
raises a TypeError; no listener-dispatch path exists in the code. -/
theorem unsolicited_frame_crashes_client :
    clientStep [] (.recvFrame ⟨"5", "event", "", []⟩) =
      ([], [.crashedUndefined]) :=
  rfl

/-- C9: a provider `token` event is broadcast to exactly the sessions
with a live ratchet cipher and authorization: each such session receives
the event once per occurrence in the session list, and a session lacking
a cipher or authorization receives nothing. -/
theorem token_event_broadcast (sessions : List Session) (s : Session) :
    List.count s (tokenBroadcastTargets sessions) =
      (if s.cipher && s.authorized then List.count s sessions else 0) ∧
    (s ∈ tokenBroadcastTargets sessions ↔
      s ∈ sessions ∧ s.cipher = true ∧ s.authorized = true) := by
  constructor
  · simp only [tokenBroadcastTargets]
    by_cases h : s.cipher && s.authorized
    · rw [if_pos h]
      exact List.count_filter h
    · rw [if_neg h]
      refine List.count_eq_zero.mpr fun hmem => ?_
      rw [List.mem_filter] at hmem
      exact h hmem.2
  · simp [tokenBroadcastTargets, List.mem_filter, Bool.and_eq_true, and_assoc]

/-- C10 counterexample: the format `"jw"` followed by U+212A KELVIN SIGN
is not a capitalization of `"jwk"`, yet its Unicode lowercase is
`"jwk"`, so both the `ImportKey` and `ExportKey` branch tests take the
JSON path rather than passing the key material through as raw bytes. -/
theorem kelvin_sign_format_takes_json_path :
    importKeyDataArgument [106, 119, 8490] [1, 2] = .parsedJwk [1, 2] ∧
    exportKeySerialize [106, 119, 8490] [3] [4] = .utf8Json [3] ∧
    [106, 119, 8490] ∉ jwkCapitalizations := by
  decide

/-- C10 (amended): both the `ExportKey` serialization branch and the
`ImportKey` deserialization branch compare the Unicode lowercase of the
format against `"jwk"`: the eight capitalizations of `"jwk"`, and the
four further strings with U+212A KELVIN SIGN in the `k` position, select
the UTF-8 JSON path, and every format string whose lowercase is not
`"jwk"` passes the key material through as raw bytes. -/
theorem jwk_format_case_insensitive (format jsonUtf8 rawBuf keyData : List Nat) :
    exportKeySerialize format jsonUtf8 rawBuf =
      (if format ∈ jwkSelectingFormats then ExportWire.utf8Json jsonUtf8
       else ExportWire.rawBuffer rawBuf) ∧
    importKeyDataArgument format keyData =
      (if format ∈ jwkSelectingFormats then ImportSource.parsedJwk keyData
       else ImportSource.rawBytes keyData) := by
  by_cases h : format ∈ jwkSelectingFormats
  · have hl := (jsToLowerCase_eq_jwk format).mpr h
    simp [exportKeySerialize, importKeyDataArgument, hl, h]
  · have hl : ¬jsToLowerCase format = strCodes "jwk" :=
      fun hh => h ((jsToLowerCase_eq_jwk format).mp hh)
    simp [exportKeySerialize, importKeyDataArgument, hl, h]

end WebcryptoLocal
